import Mathlib

/-!
Verification of the Query Router & Answer Synthesis Engine and its
frontend data contracts (ai-assistant repository).

The repository's `src/` snapshot contains the frontend pages
(`ChatPage.tsx`, `TestPage.tsx`, `DocumentsPage.tsx`, `DatabasePage.tsx`)
and deployment scripts; the backend (router, indexing pipeline, test
harness, served at `/api/...` and called by the pages) is not in the
snapshot.  Frontend functions below are translated directly from the
TypeScript source; backend operations are modelled from the spec and say
so in their doc comments.
-/

namespace AiAssistant

/-- The closed route variant set.  Modelled from the spec: `RouteDecision`
is "one of the variants `{SQL, DOCS, WEB}`"; the backend type is not under
`src/` (the frontend carries routes as raw strings). -/
inductive Route where
  | sql
  | docs
  | web
deriving DecidableEq, BEq

/-- The wire encoding of a route, as it appears in the JSON consumed by
the frontend (`'sql' | 'docs' | 'web'`). -/
def Route.asStr : Route → String
  | .sql => "sql"
  | .docs => "docs"
  | .web => "web"

/-- Whitespace as the query trimmer sees it. -/
def isWs (c : Char) : Bool :=
  c = ' ' || c = '\t' || c = '\n' || c = '\r'

/-- Strip leading and trailing whitespace from a character list. -/
def trimChars (l : List Char) : List Char :=
  ((l.dropWhile isWs).reverse.dropWhile isWs).reverse

/-- Trim a string, as `inputValue.trim()` does in the frontend and the
router's input validation does on the query text. -/
def strTrim (s : String) : String :=
  String.mk (trimChars s.data)

/-- Split a character list into space-separated words; `cur` holds the
current word's characters in reverse. -/
def wordsAux : List Char → List Char → List String
  | [], cur => if cur = [] then [] else [String.mk cur.reverse]
  | c :: cs, cur =>
    if isWs c then
      if cur = [] then wordsAux cs []
      else String.mk cur.reverse :: wordsAux cs []
    else wordsAux cs (c :: cur)

/-- The words of a query, the unit of signal matching. -/
def queryWords (q : String) : List String :=
  wordsAux q.data []

/-! ### Frontend display helpers, translated from `ChatPage.tsx` -/

/-- From `ChatPage.tsx` lines 94-101: `getRouteLabel(route?: string)`.
The TypeScript `switch` falls through to `'Unknown'` for `undefined`
(modelled as `none`) and for any unrecognized string. -/
def getRouteLabel (route : Option String) : String :=
  match route with
  | some "sql" => "SQL Agent"
  | some "docs" => "Documents"
  | some "web" => "Web Search"
  | _ => "Unknown"

/-- From `ChatPage.tsx` lines 85-92: `getRouteColor(route?: string)`. -/
def getRouteColor (route : Option String) : String :=
  match route with
  | some "sql" => "bg-blue-100 text-blue-800"
  | some "docs" => "bg-green-100 text-green-800"
  | some "web" => "bg-purple-100 text-purple-800"
  | _ => "bg-gray-100 text-gray-800"

/-- From `ChatPage.tsx` lines 103-108: `getConfidenceColor(confidence?: number)`.
JavaScript `!confidence` is `true` for `undefined` (modelled as `none`)
and for the number `0`, so both take the first (grey) branch. -/
def getConfidenceColor (confidence : Option ℚ) : String :=
  match confidence with
  | none => "bg-gray-100 text-gray-800"
  | some c =>
    if c = 0 then "bg-gray-100 text-gray-800"
    else if c ≥ 8/10 then "bg-green-100 text-green-800"
    else if c ≥ 6/10 then "bg-yellow-100 text-yellow-800"
    else "bg-red-100 text-red-800"

/-- From `ChatPage.tsx` line 40: `if (!inputValue.trim() || isLoading) return` —
the submission handler proceeds only when this is `true`. -/
def shouldSubmit (inputValue : String) (isLoading : Bool) : Bool :=
  !(strTrim inputValue == "" || isLoading)

/-- From `ChatPage.tsx` line 236: the submit button's `disabled`
condition `isLoading || !inputValue.trim()`. -/
def submitDisabled (isLoading : Bool) (inputValue : String) : Bool :=
  isLoading || strTrim inputValue == ""

/-! ### Test-page display helpers, translated from `TestPage.tsx` -/

/-- From `TestPage.tsx` lines 76-84: the seven colour classes. -/
def colors : List String :=
  [ "bg-red-100 text-red-800"
  , "bg-yellow-100 text-yellow-800"
  , "bg-green-100 text-green-800"
  , "bg-blue-100 text-blue-800"
  , "bg-indigo-100 text-indigo-800"
  , "bg-purple-100 text-purple-800"
  , "bg-pink-100 text-pink-800" ]

/-- From `TestPage.tsx` line 85: `colors[category.length % colors.length]`. -/
def getCategoryColor (category : String) : String :=
  colors.get ⟨category.length % colors.length, Nat.mod_lt _ (by decide)⟩

/-! ### Backend core, modelled from the spec (§3, §4)

The router, indexing pipeline and test harness live in the backend
(`api/main.py`), which is not part of the `src/` snapshot; every
definition below is modelled from the spec's words. -/

/-- Modelled from the spec: `Column = {name, type, notNull: boolean}`
(the backend schema descriptor is not under `src/`; `DatabasePage.tsx`
mirrors this shape as `{name, type, not_null}`). -/
structure Column where
  name : String
  type : String
  notNull : Bool
deriving DecidableEq

/-- Modelled from the spec: `Table = {columns: ordered sequence of
Column, rowCount: integer}`. -/
structure Table where
  columns : List Column
  rowCount : Nat
deriving DecidableEq

/-- Modelled from the spec: `SchemaDescriptor = {tables: mapping from
table name to Table}`, a read-only snapshot. -/
structure SchemaDescriptor where
  tables : List (String × Table)
deriving DecidableEq

/-- Modelled from the spec: `DocumentRecord = {id, name, chunkCount}`,
created on successful indexing, owned by the indexing pipeline. -/
structure DocumentRecord where
  id : Nat
  name : String
  chunkCount : Nat
deriving DecidableEq

/-- Modelled from the spec: `Chunk = {id, documentId, text,
positionalOrder}`; ordering within a document is insertion order. -/
structure Chunk where
  id : Nat
  documentId : Nat
  text : String
  positionalOrder : Nat
deriving DecidableEq

/-- Modelled from the spec: the shared corpus state — the document
records and the chunk store the retrieval subsystem searches, plus a
fresh-id counter for newly indexed documents. -/
structure CorpusState where
  documents : List DocumentRecord
  chunks : List Chunk
  nextId : Nat
deriving DecidableEq

/-- Modelled from the spec: `QueryResponse = {answer, sources,
sqlExecuted: optional, confidence in [0,1], route}` (the frontend
`ChatPage.tsx` mirrors it with `sql_executed?: string`). -/
structure QueryResponse where
  answer : String
  sources : List String
  sqlExecuted : Option String
  confidence : ℚ
  route : Route
deriving DecidableEq

/-- Modelled from the spec §7 error taxonomy: the typed failures the
router and indexing pipeline surface to the caller. -/
inductive CoreError where
  | validationError
  | unsupportedFormat
  | extractionFailure
  | notFound
deriving DecidableEq

/-- Modelled from the spec §4.1: keyword cues for structured /
aggregatable intent ("counts, how many, ..."). -/
def sqlKeywords : List String :=
  ["count", "many", "average", "total", "sum", "how"]

/-- Modelled from the spec §4.1: keyword cues for indexed-document
intent ("policy, procedure, guideline language"). -/
def docsKeywords : List String :=
  ["policy", "procedure", "guideline", "policies", "procedures", "guidelines"]

/-- Modelled from the spec §4.1: a query signals the SQL route when it
uses aggregation language or names a table known from the schema. -/
def sqlSignal (schema : SchemaDescriptor) (q : String) : Bool :=
  let ws := queryWords q
  ws.any (fun w => sqlKeywords.contains w) ||
    schema.tables.any (fun t => ws.contains t.1)

/-- Modelled from the spec §4.1: a query signals the DOCS route when it
uses policy language or overlaps the indexed chunk texts. -/
def docsSignal (corpus : CorpusState) (q : String) : Bool :=
  let ws := queryWords q
  ws.any (fun w => docsKeywords.contains w) ||
    corpus.chunks.any (fun c => (queryWords c.text).any (fun w => ws.contains w))

/-- Modelled from the spec §4.1: the pure classification function with
the fixed deterministic tie-break priority SQL > DOCS > WEB. -/
def classify (schema : SchemaDescriptor) (corpus : CorpusState) (q : String) : Route :=
  if sqlSignal schema q then .sql
  else if docsSignal corpus q then .docs
  else .web

/-- Modelled from the spec §5: the run-dependent environment of one
router invocation (clock, scheduling seed).  The classifier consults
none of it — the spec forbids random tie-breaks. -/
structure RunEnv where
  seed : Nat
  timestampMs : Nat
deriving DecidableEq

/-- Modelled from the spec: one routing run inside its environment;
the decision depends only on schema, corpus and query text. -/
def classifyRun (_env : RunEnv) (schema : SchemaDescriptor) (corpus : CorpusState)
    (q : String) : Route :=
  classify schema corpus q

/-- Modelled from the spec §4.1: signal strength backing the confidence
score — the number of matched cue words and schema/corpus hits. -/
def signalHits (schema : SchemaDescriptor) (corpus : CorpusState) (q : String) :
    Route → Nat
  | .sql =>
    let ws := queryWords q
    (ws.filter (fun w => sqlKeywords.contains w)).length +
      (schema.tables.filter (fun t => ws.contains t.1)).length
  | .docs =>
    let ws := queryWords q
    (ws.filter (fun w => docsKeywords.contains w)).length +
      (corpus.chunks.filter
        (fun c => (queryWords c.text).any (fun w => ws.contains w))).length
  | .web => 0

/-- Modelled from the spec §4.1 confidence contract: a self-assessed
scalar in `[0,1]`, increasing with signal strength and capped at `1`. -/
def confidenceFor (schema : SchemaDescriptor) (corpus : CorpusState) (q : String)
    (r : Route) : ℚ :=
  min 1 (1/2 + (signalHits schema corpus q r : ℚ) / 10)

/-- Modelled from the spec §4.2/§2: retrieval returns the top-K relevant
chunks; relevance here is word overlap with the query, K fixed. -/
def topK : Nat := 5

/-- Modelled from the spec: the document-retrieval subsystem — the first
`topK` stored chunks whose text overlaps the query's words. -/
def retrieve (corpus : CorpusState) (q : String) : List Chunk :=
  ((corpus.chunks.filter
      (fun c => (queryWords c.text).any (fun w => (queryWords q).contains w))).take topK)

/-- Modelled from the spec: resolve a chunk's back-reference to its
owning document's name (the identifier listed in `sources`). -/
def docNameOf (corpus : CorpusState) (docId : Nat) : String :=
  match corpus.documents.find? (fun d => d.id == docId) with
  | some d => d.name
  | none => ""

/-- The originating document names of the retrieved chunks, in the order
the chunks reference them (duplicates included). -/
def docRefs (corpus : CorpusState) (q : String) : List String :=
  (retrieve corpus q).map (fun c => docNameOf corpus c.documentId)

/-- Keep each name's first occurrence, dropping later duplicates;
`seen` accumulates the names already emitted. -/
def firstRefsAux (seen : List String) : List String → List String
  | [] => []
  | x :: xs =>
    if x ∈ seen then firstRefsAux seen xs
    else x :: firstRefsAux (x :: seen) xs

/-- Modelled from the spec §4.1 DOCS contract: "`sources` lists the
distinct originating document identifiers/names in the order first
referenced". -/
def firstRefs (refs : List String) : List String :=
  firstRefsAux [] refs

/-- Modelled from the spec: the text-to-structured-query translator
collaborator; the router records its literal output in `sqlExecuted`. -/
def translate (schema : SchemaDescriptor) (q : String) : String :=
  match schema.tables.find? (fun t => (queryWords q).contains t.1) with
  | some t => "SELECT COUNT(*) FROM " ++ t.1
  | none => "SELECT 1"

/-- Modelled from the spec §4.1 WEB contract: the web-search provider's
snippet origins listed as sources. -/
def webSources (q : String) : List String :=
  ["web:" ++ strTrim q]

/-- Modelled from the spec §4.1: the router — reject input that is empty
after trimming with a validation error, otherwise classify into exactly
one route, invoke that subsystem and synthesize a `QueryResponse`. -/
def submitQuery (schema : SchemaDescriptor) (corpus : CorpusState) (q : String) :
    Except CoreError QueryResponse :=
  if strTrim q = "" then .error .validationError
  else
    match classify schema corpus q with
    | .sql =>
      .ok { answer := "Result of " ++ translate schema q
          , sources := []
          , sqlExecuted := some (translate schema q)
          , confidence := confidenceFor schema corpus q .sql
          , route := .sql }
    | .docs =>
      .ok { answer := "From your documents: " ++ strTrim q
          , sources := firstRefs (docRefs corpus q)
          , sqlExecuted := none
          , confidence := confidenceFor schema corpus q .docs
          , route := .docs }
    | .web =>
      .ok { answer := "From the web: " ++ strTrim q
          , sources := webSources q
          , sqlExecuted := none
          , confidence := confidenceFor schema corpus q .web
          , route := .web }

/-! ### Document indexing pipeline, modelled from the spec (§4.2) -/

/-- Modelled from the spec: an uploaded source document — a name, the
declared format, and the extraction collaborator's view of the byte
stream (`extractable = false` models a corrupted file whose text cannot
be extracted). -/
structure SourceDoc where
  name : String
  declaredType : String
  extractable : Bool
  text : String
deriving DecidableEq

/-- Modelled from the spec: the supported formats PDF/TXT/MD/DOCX
(`DocumentsPage.tsx` mirrors them in its dropzone accept list). -/
def supportedFormats : List String :=
  ["pdf", "txt", "md", "docx"]

/-- Modelled from the spec: the configurable bounded chunk length. -/
def chunkSize : Nat := 40

/-- Split a character list into consecutive pieces of at most `n`
characters; `fuel` bounds the recursion by the input length. -/
def chunksOfAux (n : Nat) : Nat → List Char → List (List Char)
  | _, [] => []
  | 0, _ :: _ => []
  | fuel + 1, c :: cs => ((c :: cs).take n) :: chunksOfAux n fuel ((c :: cs).drop n)

/-- Modelled from the spec: split extracted text into bounded-size
chunks preserving original order. -/
def chunkText (text : String) : List String :=
  (chunksOfAux chunkSize text.length text.toList).map (fun l => String.mk l)

/-- Modelled from the spec: the text-extraction collaborator — yields
the document's text, or nothing when the file is corrupted. -/
def extractedText (doc : SourceDoc) : Option String :=
  if doc.extractable then some doc.text else none

/-- Modelled from the spec §4.2: `index(name, byteStream, declaredType)`
— validate the declared format, extract text, chunk it, store all
chunks keyed by a fresh document id, and return the `DocumentRecord`;
on any failure the state is returned unchanged (all-or-nothing). -/
def index (st : CorpusState) (doc : SourceDoc) :
    CorpusState × Except CoreError DocumentRecord :=
  if supportedFormats.contains doc.declaredType then
    match extractedText doc with
    | none => (st, .error .extractionFailure)
    | some text =>
      let docId := st.nextId
      let pieces := chunkText text
      let newChunks := pieces.enum.map (fun p =>
        { id := docId * 1000 + p.1
          documentId := docId
          text := p.2
          positionalOrder := p.1 : Chunk })
      let record : DocumentRecord :=
        { id := docId, name := doc.name, chunkCount := pieces.length }
      ({ documents := st.documents ++ [record]
         chunks := st.chunks ++ newChunks
         nextId := st.nextId + 1 }, .ok record)
  else (st, .error .unsupportedFormat)

/-- Modelled from the spec §4.2: `list()` returns all document records
in insertion order. -/
def listDocs (st : CorpusState) : List DocumentRecord :=
  st.documents

/-- Modelled from the spec §4.2: `remove(documentId)` deletes the
document and all its chunks atomically, and fails with `NotFound` for an
unknown id — never a silent no-op. -/
def remove (st : CorpusState) (docId : Nat) : CorpusState × Except CoreError Unit :=
  if st.documents.any (fun d => d.id == docId) then
    ({ documents := st.documents.filter (fun d => d.id != docId)
       chunks := st.chunks.filter (fun c => c.documentId != docId)
       nextId := st.nextId }, .ok ())
  else (st, .error .notFound)

/-! ### Routing test harness, modelled from the spec (§4.3) -/

/-- Modelled from the spec: `TestQuery = {id, query, expectedRoute,
category}` (`TestPage.tsx` mirrors it with snake_case fields). -/
structure TestQuery where
  id : Nat
  query : String
  expectedRoute : Route
  category : String
deriving DecidableEq

/-- Modelled from the spec: `TestResult`; a router-level failure is
recorded as a failed result with no actual route. -/
structure TestResult where
  id : Nat
  query : String
  expectedRoute : Route
  actualRoute : Option Route
  passed : Bool
  confidence : ℚ
  executionTimeMs : Nat
  category : String
deriving DecidableEq

/-- One `{total, passed}` entry of `resultsByCategory` / `resultsByRoute`. -/
structure RouteStats where
  total : Nat
  passed : Nat
deriving DecidableEq

/-- Modelled from the spec: the `TestResults` aggregate of §3. -/
structure TestResults where
  totalTests : Nat
  passed : Nat
  failed : Nat
  successRate : ℚ
  averageConfidence : ℚ
  testDetails : List TestResult
  resultsByCategory : List (String × RouteStats)
  resultsByRoute : List (String × RouteStats)
deriving DecidableEq

/-- Modelled from the spec §4.3: run one test query through the router;
a router failure becomes a failed `TestResult` instead of aborting. -/
def runOne (env : RunEnv) (schema : SchemaDescriptor) (corpus : CorpusState)
    (tq : TestQuery) : TestResult :=
  match submitQuery schema corpus tq.query with
  | .ok resp =>
    { id := tq.id, query := tq.query, expectedRoute := tq.expectedRoute
      actualRoute := some resp.route
      passed := resp.route == tq.expectedRoute
      confidence := resp.confidence
      executionTimeMs := env.timestampMs
      category := tq.category }
  | .error _ =>
    { id := tq.id, query := tq.query, expectedRoute := tq.expectedRoute
      actualRoute := none
      passed := false
      confidence := 0
      executionTimeMs := env.timestampMs
      category := tq.category }

/-- Add one outcome under key `k` to an accumulation list, creating the
entry on first sight of the key. -/
def bump (k : String) (ok : Bool) :
    List (String × RouteStats) → List (String × RouteStats)
  | [] => [(k, ⟨1, if ok then 1 else 0⟩)]
  | e :: rest =>
    if e.1 = k then
      (e.1, ⟨e.2.total + 1, if ok then e.2.passed + 1 else e.2.passed⟩) :: rest
    else e :: bump k ok rest

/-- Aggregate pass/fail counts of the results, keyed by `key`. -/
def tally (key : TestResult → String) : List TestResult → List (String × RouteStats)
  | [] => []
  | r :: rest => bump (key r) r.passed (tally key rest)

/-- The aggregation key of a result's actual route. -/
def routeKey : Option Route → String
  | some r => r.asStr
  | none => "error"

/-- The sum of the `total` fields of an accumulation list. -/
def sumTotals (l : List (String × RouteStats)) : Nat :=
  (l.map (fun e => e.2.total)).sum

/-- Modelled from the spec §4.3: `runAll` executes every test query
through the router and produces the `TestResults` aggregate. -/
def runAll (env : RunEnv) (schema : SchemaDescriptor) (corpus : CorpusState)
    (qs : List TestQuery) : TestResults :=
  let details := qs.map (runOne env schema corpus)
  let passedCount := (details.filter (fun r => r.passed)).length
  let failedCount := (details.filter (fun r => !r.passed)).length
  { totalTests := details.length
    passed := passedCount
    failed := failedCount
    successRate := if details.length = 0 then 0 else (passedCount : ℚ) / details.length
    averageConfidence :=
      if details.length = 0 then 0
      else ((details.map (fun r => r.confidence)).sum) / details.length
    testDetails := details
    resultsByCategory := tally (fun r => r.category) details
    resultsByRoute := tally (fun r => routeKey r.actualRoute) details }

/-! ### Concrete fixtures used by the witnesses -/

/-- A small schema snapshot: one `employees` table with 42 rows
(spec §8, Scenario B). -/
def demoSchema : SchemaDescriptor :=
  ⟨[("employees", ⟨[⟨"id", "INTEGER", true⟩, ⟨"name", "TEXT", true⟩], 42⟩)]⟩

/-- A one-document corpus: "Leave Policy" with one indexed chunk
(spec §8, Scenario A). -/
def demoCorpus : CorpusState :=
  ⟨[⟨1, "Leave Policy", 1⟩], [⟨10, 1, "employees get 15 vacation days", 0⟩], 2⟩

/-- The route of a successful router response, if any. -/
def okRoute (r : Except CoreError QueryResponse) : Option Route :=
  r.toOption.map (fun x => x.route)

/-- The `sqlExecuted` payload of a successful router response, if any. -/
def okSql (r : Except CoreError QueryResponse) : Option (Option String) :=
  r.toOption.map (fun x => x.sqlExecuted)

/-- The `sources` payload of a successful router response, if any. -/
def okSources (r : Except CoreError QueryResponse) : Option (List String) :=
  r.toOption.map (fun x => x.sources)

end AiAssistant

namespace AiAssistant

/-! ### Helper lemmas -/

theorem confidenceFor_nonneg (schema : SchemaDescriptor) (corpus : CorpusState)
    (q : String) (r : Route) : 0 ≤ confidenceFor schema corpus q r := by
  unfold confidenceFor
  refine le_min (by norm_num) ?_
  positivity

theorem confidenceFor_le_one (schema : SchemaDescriptor) (corpus : CorpusState)
    (q : String) (r : Route) : confidenceFor schema corpus q r ≤ 1 :=
  min_le_left _ _

theorem length_filter_add_length_filter_not {α : Type} (l : List α) (p : α → Bool) :
    (l.filter p).length + (l.filter (fun a => !p a)).length = l.length := by
  induction l with
  | nil => rfl
  | cons x xs ih =>
    cases h : p x <;> simp [List.filter_cons, h] <;> omega

theorem sumTotals_bump (k : String) (ok : Bool) (l : List (String × RouteStats)) :
    sumTotals (bump k ok l) = sumTotals l + 1 := by
  induction l with
  | nil => simp [bump, sumTotals]
  | cons e rest ih =>
    by_cases h : e.1 = k
    · simp only [bump, if_pos h, sumTotals, List.map_cons, List.sum_cons]
      simp only [sumTotals] at *
      omega
    · simp only [bump, if_neg h, sumTotals, List.map_cons, List.sum_cons]
      simp only [sumTotals] at ih
      omega

theorem sumTotals_tally (key : TestResult → String) (rs : List TestResult) :
    sumTotals (tally key rs) = rs.length := by
  induction rs with
  | nil => rfl
  | cons r rest ih => simp [tally, sumTotals_bump, ih]

theorem bump_passed_le (k : String) (ok : Bool) (l : List (String × RouteStats)) :
    (∀ e ∈ l, e.2.passed ≤ e.2.total) →
    ∀ e ∈ bump k ok l, e.2.passed ≤ e.2.total := by
  induction l with
  | nil =>
    intro _ e he
    simp only [bump, List.mem_singleton] at he
    subst he
    cases ok <;> simp
  | cons e0 rest ih =>
    intro h e he
    by_cases hk : e0.1 = k
    · simp only [bump, if_pos hk, List.mem_cons] at he
      rcases he with he | he
      · subst he
        have h0 := h e0 (List.mem_cons_self _ _)
        cases ok <;> simp <;> omega
      · exact h e (List.mem_cons_of_mem _ he)
    · simp only [bump, if_neg hk, List.mem_cons] at he
      rcases he with he | he
      · rw [he]
        exact h e0 (List.mem_cons_self _ _)
      · exact ih (fun x hx => h x (List.mem_cons_of_mem _ hx)) e he

theorem tally_passed_le (key : TestResult → String) (rs : List TestResult) :
    ∀ e ∈ tally key rs, e.2.passed ≤ e.2.total := by
  induction rs with
  | nil => intro e he; simp [tally] at he
  | cons r rest ih => exact bump_passed_le _ _ _ ih

theorem firstRefsAux_sublist (l : List String) :
    ∀ seen, List.Sublist (firstRefsAux seen l) l := by
  induction l with
  | nil => intro seen; simp [firstRefsAux]
  | cons x xs ih =>
    intro seen
    by_cases h : x ∈ seen
    · rw [firstRefsAux, if_pos h]
      exact (ih seen).cons x
    · rw [firstRefsAux, if_neg h]
      exact (ih (x :: seen)).cons₂ x

theorem mem_firstRefsAux (x : String) (l : List String) :
    ∀ seen, x ∈ firstRefsAux seen l ↔ x ∈ l ∧ x ∉ seen := by
  induction l with
  | nil => intro seen; simp [firstRefsAux]
  | cons y ys ih =>
    intro seen
    by_cases h : y ∈ seen
    · rw [firstRefsAux, if_pos h, ih seen]
      simp only [List.mem_cons]
      constructor
      · rintro ⟨hx, hs⟩
        exact ⟨Or.inr hx, hs⟩
      · rintro ⟨hx | hx, hs⟩
        · subst hx; exact absurd h hs
        · exact ⟨hx, hs⟩
    · rw [firstRefsAux, if_neg h]
      simp only [List.mem_cons, ih (y :: seen)]
      constructor
      · rintro (rfl | ⟨hx, hny⟩)
        · exact ⟨Or.inl rfl, h⟩
        · simp only [List.mem_cons, not_or] at hny
          exact ⟨Or.inr hx, hny.2⟩
      · rintro ⟨rfl | hx, hs⟩
        · exact Or.inl rfl
        · by_cases hxy : x = y
          · exact Or.inl hxy
          · refine Or.inr ⟨hx, ?_⟩
            simp only [List.mem_cons, not_or]
            exact ⟨hxy, hs⟩

theorem nodup_firstRefsAux (l : List String) :
    ∀ seen, (firstRefsAux seen l).Nodup := by
  induction l with
  | nil => intro seen; simp [firstRefsAux]
  | cons y ys ih =>
    intro seen
    by_cases h : y ∈ seen
    · rw [firstRefsAux, if_pos h]; exact ih seen
    · rw [firstRefsAux, if_neg h]
      refine List.nodup_cons.mpr ⟨?_, ih _⟩
      intro hy
      exact ((mem_firstRefsAux y ys (y :: seen)).mp hy).2 (List.mem_cons_self y seen)

theorem firstRefs_nodup (l : List String) : (firstRefs l).Nodup :=
  nodup_firstRefsAux l []

theorem mem_firstRefs (x : String) (l : List String) : x ∈ firstRefs l ↔ x ∈ l := by
  rw [firstRefs, mem_firstRefsAux]
  simp

theorem firstRefs_sublist (l : List String) : List.Sublist (firstRefs l) l :=
  firstRefsAux_sublist l []

/-! ### Claim theorems -/

/-- C1: for every query that is non-empty after trimming, the router
produces a successful `QueryResponse` whose route is exactly one of
`{sql, docs, web}` and whose confidence lies in `[0, 1]`. -/
theorem router_single_route_bounded_confidence
    (schema : SchemaDescriptor) (corpus : CorpusState) (q : String)
    (h : strTrim q ≠ "") :
    match submitQuery schema corpus q with
    | .error _ => False
    | .ok resp =>
        (resp.route = .sql ∨ resp.route = .docs ∨ resp.route = .web) ∧
        0 ≤ resp.confidence ∧ resp.confidence ≤ 1 := by
  unfold submitQuery
  rw [if_neg h]
  cases hc : classify schema corpus q <;>
    exact ⟨by simp, confidenceFor_nonneg _ _ _ _, confidenceFor_le_one _ _ _ _⟩

/-- Witness for C1: the theorem applied to a concrete non-empty query
against the demo schema and corpus. -/
theorem router_single_route_bounded_confidence_demo :
    (strTrim "how many employees are there" ≠ "") ∧
    (match submitQuery demoSchema demoCorpus "how many employees are there" with
     | .error _ => False
     | .ok resp =>
        (resp.route = .sql ∨ resp.route = .docs ∨ resp.route = .web) ∧
        0 ≤ resp.confidence ∧ resp.confidence ≤ 1) :=
  ⟨by decide,
   router_single_route_bounded_confidence demoSchema demoCorpus
     "how many employees are there" (by decide)⟩

/-- C2: routing is deterministic — two runs in different environments
give the same decision, and ties between signals are broken by the fixed
priority SQL > DOCS > WEB, never randomly. -/
theorem routing_deterministic
    (e₁ e₂ : RunEnv) (schema : SchemaDescriptor) (corpus : CorpusState) (q : String) :
    classifyRun e₁ schema corpus q = classifyRun e₂ schema corpus q ∧
    (sqlSignal schema q = true → classify schema corpus q = .sql) ∧
    (sqlSignal schema q = false → docsSignal corpus q = true →
      classify schema corpus q = .docs) ∧
    (sqlSignal schema q = false → docsSignal corpus q = false →
      classify schema corpus q = .web) := by
  refine ⟨rfl, ?_, ?_, ?_⟩
  · intro h; simp [classify, h]
  · intro h1 h2; simp [classify, h1, h2]
  · intro h1 h2; simp [classify, h1, h2]

/-- Witness for C2: a query carrying both a SQL signal and a DOCS signal
routes identically under two different run environments, and the fixed
tie-break resolves it to SQL. -/
theorem routing_deterministic_demo :
    sqlSignal demoSchema "how many vacation policy" = true ∧
    docsSignal demoCorpus "how many vacation policy" = true ∧
    classifyRun ⟨0, 0⟩ demoSchema demoCorpus "how many vacation policy" =
      classifyRun ⟨99, 123456⟩ demoSchema demoCorpus "how many vacation policy" ∧
    classify demoSchema demoCorpus "how many vacation policy" = .sql :=
  ⟨by decide, by decide,
   (routing_deterministic ⟨0, 0⟩ ⟨99, 123456⟩ demoSchema demoCorpus
     "how many vacation policy").1,
   (routing_deterministic ⟨0, 0⟩ ⟨99, 123456⟩ demoSchema demoCorpus
     "how many vacation policy").2.1 (by decide)⟩

/-- C3: every `TestResults` aggregate produced by `runAll` satisfies
`passed + failed = totalTests`, every per-category and per-route entry
satisfies `passed ≤ total`, and the per-category totals sum to
`totalTests`. -/
theorem runAll_aggregation_invariants
    (env : RunEnv) (schema : SchemaDescriptor) (corpus : CorpusState)
    (qs : List TestQuery) :
    (runAll env schema corpus qs).passed + (runAll env schema corpus qs).failed =
        (runAll env schema corpus qs).totalTests ∧
    sumTotals (runAll env schema corpus qs).resultsByCategory =
        (runAll env schema corpus qs).totalTests ∧
    ((runAll env schema corpus qs).resultsByCategory.all
        (fun e => decide (e.2.passed ≤ e.2.total))) = true ∧
    ((runAll env schema corpus qs).resultsByRoute.all
        (fun e => decide (e.2.passed ≤ e.2.total))) = true := by
  refine ⟨?_, ?_, ?_, ?_⟩
  · exact length_filter_add_length_filter_not _ _
  · exact sumTotals_tally _ _
  · exact List.all_eq_true.mpr
      (fun e he => decide_eq_true (tally_passed_le _ _ e he))
  · exact List.all_eq_true.mpr
      (fun e he => decide_eq_true (tally_passed_le _ _ e he))

/-- C4: input that is empty after trimming is never submitted by the
chat page (handler guard and disabled button) and is rejected by the
router with a validation error — it never yields a `QueryResponse`. -/
theorem empty_query_rejected (inputValue : String) (isLoading : Bool)
    (schema : SchemaDescriptor) (corpus : CorpusState)
    (h : strTrim inputValue = "") :
    shouldSubmit inputValue isLoading = false ∧
    submitDisabled isLoading inputValue = true ∧
    submitQuery schema corpus inputValue = .error .validationError := by
  refine ⟨?_, ?_, ?_⟩
  · simp [shouldSubmit, h]
  · simp [submitDisabled, h]
  · simp [submitQuery, h]

/-- Witness for C4: a whitespace-only input is blocked on the frontend
and rejected by the router. -/
theorem empty_query_rejected_demo :
    (strTrim "   " = "") ∧
    (shouldSubmit "   " false = false ∧
     submitDisabled false "   " = true ∧
     submitQuery demoSchema demoCorpus "   " = .error .validationError) :=
  ⟨by decide, empty_query_rejected "   " false demoSchema demoCorpus (by decide)⟩

/-- C5: indexing is all-or-nothing — an unsupported declared type fails
with `UnsupportedFormat`, a failed extraction fails with
`ExtractionFailure`, and every failure leaves the corpus state (hence
the chunk store) exactly as it was. -/
theorem index_all_or_nothing (st : CorpusState) (doc : SourceDoc) :
    (doc.declaredType ∉ supportedFormats →
       index st doc = (st, .error .unsupportedFormat)) ∧
    (doc.declaredType ∈ supportedFormats → doc.extractable = false →
       index st doc = (st, .error .extractionFailure)) ∧
    (∀ e : CoreError, (index st doc).2 = .error e → (index st doc).1 = st) := by
  refine ⟨?_, ?_, ?_⟩
  · intro h
    unfold index
    rw [if_neg (by simpa using h)]
  · intro h hx
    unfold index
    rw [if_pos (by simpa using h)]
    simp [extractedText, hx]
  · intro e he
    unfold index at he ⊢
    by_cases h : supportedFormats.contains doc.declaredType
    · rw [if_pos h] at he ⊢
      by_cases hx : doc.extractable
      · simp [extractedText, hx] at he
      · simp [extractedText, hx]
    · rw [if_neg h] at he ⊢

/-- Witness for C5: an `.exe` upload fails with `UnsupportedFormat` and
a corrupted `.pdf` fails with `ExtractionFailure`, both leaving the demo
corpus untouched. -/
theorem index_all_or_nothing_demo :
    ("exe" ∉ supportedFormats) ∧
    index demoCorpus ⟨"virus", "exe", true, "hello"⟩ =
      (demoCorpus, .error .unsupportedFormat) ∧
    index demoCorpus ⟨"broken", "pdf", false, ""⟩ =
      (demoCorpus, .error .extractionFailure) :=
  ⟨by decide,
   (index_all_or_nothing demoCorpus ⟨"virus", "exe", true, "hello"⟩).1 (by decide),
   (index_all_or_nothing demoCorpus ⟨"broken", "pdf", false, ""⟩).2.1 (by decide) rfl⟩

/-- C6: `remove` on a known id succeeds and atomically deletes the
document and all of its chunks — afterwards `list()` holds no record
with that id and no chunk carries that `documentId`; on an unknown id it
fails with `NotFound` and changes nothing (never a silent no-op). -/
theorem remove_atomic (st : CorpusState) (docId : Nat) :
    (st.documents.any (fun d => d.id == docId) = true →
       (remove st docId).2 = .ok () ∧
       ((listDocs (remove st docId).1).all (fun d => d.id != docId)) = true ∧
       ((remove st docId).1.chunks.all (fun c => c.documentId != docId)) = true) ∧
    (st.documents.any (fun d => d.id == docId) = false →
       remove st docId = (st, .error .notFound)) := by
  constructor
  · intro h
    refine ⟨?_, ?_, ?_⟩
    · simp [remove, h]
    · rw [remove, if_pos h]
      dsimp only [listDocs]
      refine List.all_eq_true.mpr ?_
      intro d hd
      exact (List.mem_filter.mp hd).2
    · rw [remove, if_pos h]
      dsimp only
      refine List.all_eq_true.mpr ?_
      intro c hc
      exact (List.mem_filter.mp hc).2
  · intro h
    simp [remove, h]

/-- Witness for C6: deleting the known demo document id 1 succeeds and
leaves no trace of it, while deleting the unknown id 77 fails with
`NotFound`. -/
theorem remove_atomic_demo :
    (demoCorpus.documents.any (fun d => d.id == 1) = true) ∧
    ((remove demoCorpus 1).2 = .ok () ∧
     ((listDocs (remove demoCorpus 1).1).all (fun d => d.id != 1)) = true ∧
     ((remove demoCorpus 1).1.chunks.all (fun c => c.documentId != 1)) = true) ∧
    (demoCorpus.documents.any (fun d => d.id == 77) = false) ∧
    remove demoCorpus 77 = (demoCorpus, .error .notFound) :=
  ⟨by decide, (remove_atomic demoCorpus 1).1 (by decide), by decide,
   (remove_atomic demoCorpus 77).2 (by decide)⟩

/-- C7: a successful SQL-routed response carries the literal translated
query in `sqlExecuted` and empty `sources`; DOCS- and WEB-routed
responses carry no `sqlExecuted`, and a DOCS response's sources are the
distinct originating document names in first-reference order (no
duplicates, same membership as the reference list, order-preserving
sublist of it). -/
theorem route_payload_shape (schema : SchemaDescriptor) (corpus : CorpusState)
    (q : String) :
    (okRoute (submitQuery schema corpus q) = some .sql →
       okSql (submitQuery schema corpus q) = some (some (translate schema q)) ∧
       okSources (submitQuery schema corpus q) = some []) ∧
    (okRoute (submitQuery schema corpus q) = some .docs →
       okSql (submitQuery schema corpus q) = some none ∧
       okSources (submitQuery schema corpus q) =
         some (firstRefs (docRefs corpus q)) ∧
       (firstRefs (docRefs corpus q)).Nodup ∧
       (∀ x, x ∈ firstRefs (docRefs corpus q) ↔ x ∈ docRefs corpus q) ∧
       List.Sublist (firstRefs (docRefs corpus q)) (docRefs corpus q)) ∧
    (okRoute (submitQuery schema corpus q) = some .web →
       okSql (submitQuery schema corpus q) = some none) := by
  by_cases ht : strTrim q = ""
  · simp [submitQuery, ht, okRoute, okSql, okSources, Except.toOption]
  · cases hc : classify schema corpus q <;>
      simp [submitQuery, ht, hc, okRoute, okSql, okSources, Except.toOption,
        firstRefs_nodup, mem_firstRefs, firstRefs_sublist]

/-- Witness for C7: an SQL-routed demo query shows the literal translated
query and empty sources; a DOCS-routed demo query shows no SQL and the
first-reference source list. -/
theorem route_payload_shape_demo :
    okRoute (submitQuery demoSchema demoCorpus "how many employees are there") =
      some .sql ∧
    okSql (submitQuery demoSchema demoCorpus "how many employees are there") =
      some (some (translate demoSchema "how many employees are there")) ∧
    okSources (submitQuery demoSchema demoCorpus "how many employees are there") =
      some [] ∧
    okRoute (submitQuery demoSchema demoCorpus "what is the vacation policy") =
      some .docs ∧
    okSql (submitQuery demoSchema demoCorpus "what is the vacation policy") =
      some none ∧
    okSources (submitQuery demoSchema demoCorpus "what is the vacation policy") =
      some (firstRefs (docRefs demoCorpus "what is the vacation policy")) :=
  ⟨by decide,
   ((route_payload_shape demoSchema demoCorpus
       "how many employees are there").1 (by decide)).1,
   ((route_payload_shape demoSchema demoCorpus
       "how many employees are there").1 (by decide)).2,
   by decide,
   ((route_payload_shape demoSchema demoCorpus
       "what is the vacation policy").2.1 (by decide)).1,
   ((route_payload_shape demoSchema demoCorpus
       "what is the vacation policy").2.1 (by decide)).2.1⟩

/-- C8: `RouteDecision` has exactly the three variants, the display
mapping sends each to its label, and within the data model (a route is a
`RouteDecision` or absent) the "Unknown" label arises exactly when the
route is absent. -/
theorem routeLabel_unknown_iff_absent :
    (∀ r : Route, r = .sql ∨ r = .docs ∨ r = .web) ∧
    getRouteLabel (some "sql") = "SQL Agent" ∧
    getRouteLabel (some "docs") = "Documents" ∧
    getRouteLabel (some "web") = "Web Search" ∧
    getRouteLabel none = "Unknown" ∧
    (∀ ro : Option Route,
      (getRouteLabel (ro.map Route.asStr) = "Unknown" ↔ ro = none)) := by
  refine ⟨?_, rfl, rfl, rfl, rfl, ?_⟩
  · intro r; cases r <;> simp
  · intro ro
    cases ro with
    | none => simp [getRouteLabel]
    | some r => cases r <;> simp [getRouteLabel, Route.asStr]

/-- C9: the category colour index `category.length % colors.length` is
always in `[0, 7)`, so `getCategoryColor` returns one of the seven
defined colour classes for every category string, the empty string
included. -/
theorem getCategoryColor_mem_colors :
    (∀ category : String,
        category.length % colors.length < 7 ∧
        getCategoryColor category ∈ colors) ∧
    getCategoryColor "" ∈ colors := by
  have h : ∀ category : String,
      category.length % colors.length < 7 ∧ getCategoryColor category ∈ colors := by
    intro category
    constructor
    · exact Nat.mod_lt _ (by decide)
    · exact List.get_mem _ _ _
  exact ⟨h, (h "").2⟩

/-- C10: confidence exactly `0` is rendered with the same grey styling as
an absent confidence, not in the red low-confidence tier. -/
theorem confidenceColor_conflates_zero_with_missing :
    getConfidenceColor (some 0) = getConfidenceColor none ∧
    getConfidenceColor none = "bg-gray-100 text-gray-800" ∧
    getConfidenceColor (some 0) ≠ "bg-red-100 text-red-800" := by
  refine ⟨rfl, rfl, ?_⟩
  decide

end AiAssistant
